import Mathlib

/-!
Verification of the Scheduling & Calendar Engine of the agendaNL application.

The TypeScript source keeps surgery timestamps as strings parsed into JS
`Date` values; here a timestamp is represented by its local calendar and
clock components (`DateTime`), and an instant is compared through
`epochMs`, the millisecond count obtained from the civil-date day number.
Remote calls (Supabase reads and writes) are modelled by explicit
`Except String` results passed as parameters, and React `setX` state
updates by explicit record updates on `AppState`.
-/

/-- A calendar date (year, 1-based month, day), as carried by a JS `Date`
used purely as a day slot in the calendar grid. -/
structure CalDate where
  year : Int
  month : Nat
  day : Nat
deriving DecidableEq, Repr

/-- Local date-and-time components of a JS `Date` value:
`getFullYear/getMonth+1/getDate/getHours/getMinutes/getSeconds/getMilliseconds`. -/
structure DateTime where
  year : Int
  month : Nat
  day : Nat
  hour : Nat
  minute : Nat
  second : Nat
  ms : Nat
deriving DecidableEq, Repr

/-- Days from the civil epoch 1970-01-01 (proleptic Gregorian), the standard
civil-calendar day-number computation underlying JS `Date` arithmetic. -/
def daysFromCivil (y : Int) (m : Nat) (d : Nat) : Int :=
  let y2 : Int := if m ≤ 2 then y - 1 else y
  let era : Int := (if 0 ≤ y2 then y2 else y2 - 399) / 400
  let yoe : Int := y2 - era * 400
  let mp : Int := ((m : Int) + 9) % 12
  let doy : Int := (153 * mp + 2) / 5 + (d : Int) - 1
  let doe : Int := yoe * 365 + yoe / 4 - yoe / 100 + doy
  era * 146097 + doe - 719468

/-- Weekday with Sunday = 0, as returned by JS `Date.prototype.getDay`
(1970-01-01 was a Thursday, weekday 4). -/
def weekdaySun (y : Int) (m : Nat) (d : Nat) : Nat :=
  ((daysFromCivil y m d + 4) % 7).toNat

/-- `new Date(year, month + 1, 0).getDate()`: the number of days in the
given month (1-based) of the given year. -/
def daysInMonth (y : Int) (m : Nat) : Nat :=
  if m = 2 then (if (y % 4 = 0 ∧ y % 100 ≠ 0) ∨ y % 400 = 0 then 29 else 28)
  else if m = 4 ∨ m = 6 ∨ m = 9 ∨ m = 11 then 30 else 31

/-- `interface Doctor` from the source. -/
structure Doctor where
  id : String
  name : String
  color : String
deriving DecidableEq, Repr

/-- `interface UserProfile` from the source. -/
structure UserProfile where
  id : String
  doctor_id : String
  is_admin : Bool
  name : Option String
deriving DecidableEq, Repr

/-- `interface Hospital` from the source. -/
structure Hospital where
  id : String
  name : String
deriving DecidableEq, Repr

/-- `interface InsurancePlan` from the source. -/
structure InsurancePlan where
  id : String
  name : String
deriving DecidableEq, Repr

/-- `interface Material` from the source. -/
structure Material where
  name : String
  quantity : Nat
deriving DecidableEq, Repr

/-- `interface Surgery` from the source; `dateTime` is the parsed form of the
stored timestamp string, and the two status fields keep their literal string
values (`Pendente`/`Liberado`/`Recusado`, `Agendada`/`Realizada`/`Cancelada`). -/
structure Surgery where
  id : String
  patientName : String
  mainSurgeonId : String
  participatingIds : List String
  dateTime : DateTime
  hospitalId : String
  insuranceId : String
  authStatus : String
  surgeryStatus : String
  totalValue : Int
  materials : List Material
  notes : String
deriving DecidableEq, Repr

/-- The timestamp computation inside `handleSurgeryDrop`:
`new Date(newDate.getFullYear(), newDate.getMonth(), newDate.getDate(),
oldDateTime.getHours(), oldDateTime.getMinutes())`.
Seconds and milliseconds are not passed to the constructor, so they are zero. -/
def rescheduleTimestamp (surgery : Surgery) (newDate : CalDate) : DateTime :=
  let oldDateTime := surgery.dateTime
  { year := newDate.year
    month := newDate.month
    day := newDate.day
    hour := oldDateTime.hour
    minute := oldDateTime.minute
    second := 0
    ms := 0 }

/-- **C1.** The reschedule computation keeps the original hour and minute and
takes year, month and day from the target date; the surgery record itself is
a pure input to a function that builds a fresh `DateTime`, so it is never
mutated. In particular a surgery dated 2024-03-15T10:00 dropped onto
2024-03-20 yields 2024-03-20T10:00. -/
theorem reschedule_preserves_time_replaces_date :
    (∀ (s : Surgery) (d : CalDate),
      (rescheduleTimestamp s d).hour = s.dateTime.hour ∧
      (rescheduleTimestamp s d).minute = s.dateTime.minute ∧
      (rescheduleTimestamp s d).year = d.year ∧
      (rescheduleTimestamp s d).month = d.month ∧
      (rescheduleTimestamp s d).day = d.day) ∧
    (∀ (s : Surgery), s.dateTime = ⟨2024, 3, 15, 10, 0, 0, 0⟩ →
      rescheduleTimestamp s ⟨2024, 3, 20⟩ = ⟨2024, 3, 20, 10, 0, 0, 0⟩) := by
  constructor
  · intro s d
    exact ⟨rfl, rfl, rfl, rfl, rfl⟩
  · intro s h
    simp [rescheduleTimestamp, h]

/-- Witness for C1: the documented drag-and-drop scenario, evaluated on a
concrete surgery record. -/
theorem reschedule_preserves_time_replaces_date_witness :
    rescheduleTimestamp
      { id := "s1", patientName := "Ana", mainSurgeonId := "d1",
        participatingIds := [], dateTime := ⟨2024, 3, 15, 10, 0, 0, 0⟩,
        hospitalId := "h1", insuranceId := "i1", authStatus := "Pendente",
        surgeryStatus := "Agendada", totalValue := 0, materials := [],
        notes := "" }
      ⟨2024, 3, 20⟩ = ⟨2024, 3, 20, 10, 0, 0, 0⟩ :=
  reschedule_preserves_time_replaces_date.2
    { id := "s1", patientName := "Ana", mainSurgeonId := "d1",
      participatingIds := [], dateTime := ⟨2024, 3, 15, 10, 0, 0, 0⟩,
      hospitalId := "h1", insuranceId := "i1", authStatus := "Pendente",
      surgeryStatus := "Agendada", totalValue := 0, materials := [],
      notes := "" }
    rfl

/-- **C9.** The reschedule computation always zeroes seconds and
milliseconds: only hours and minutes of the original timestamp are carried
over; any seconds or sub-second component is discarded. -/
theorem reschedule_zeroes_seconds_ms (s : Surgery) (d : CalDate) :
    (rescheduleTimestamp s d).second = 0 ∧ (rescheduleTimestamp s d).ms = 0 :=
  ⟨rfl, rfl⟩

/-- `calendarGrid` from `CalendarView`: leading `null` cells up to the
weekday (Sunday-first) of day 1 of the reference month, then one `Date`
cell per day of the month, pushed in increasing day order. -/
def calendarGrid (refDate : CalDate) : List (Option CalDate) :=
  let year := refDate.year
  let month := refDate.month
  let firstDayOfMonth := weekdaySun year month 1
  let days := daysInMonth year month
  List.replicate firstDayOfMonth none ++
    (List.range days).map (fun i => some ⟨year, month, i + 1⟩)

/-- **C5.** The month grid is exactly (weekday offset of day 1, Sunday-first)
leading empty placeholder cells followed by one cell per day of the month in
chronological order; total length = offset + daysInMonth, no trailing
padding. -/
theorem calendarGrid_structure (ref : CalDate) :
    (calendarGrid ref).length =
        weekdaySun ref.year ref.month 1 + daysInMonth ref.year ref.month ∧
    (∀ i, i < weekdaySun ref.year ref.month 1 → (calendarGrid ref)[i]? = some none) ∧
    (∀ j, j < daysInMonth ref.year ref.month →
      (calendarGrid ref)[weekdaySun ref.year ref.month 1 + j]? =
        some (some ⟨ref.year, ref.month, j + 1⟩)) := by
  refine ⟨by simp [calendarGrid], ?_, ?_⟩
  · intro i hi
    simp only [calendarGrid, List.getElem?_append, List.length_replicate]
    rw [if_pos hi]
    simp [List.getElem?_replicate, hi]
  · intro j hj
    simp only [calendarGrid, List.getElem?_append, List.length_replicate]
    rw [if_neg (by omega)]
    simp [List.getElem?_range hj]

/-- Witness for C5 at March 2024: day 1 is a Friday (offset 5) and the month
has 31 days; cell 2 is an empty placeholder and cell 5 is March 1. -/
theorem calendarGrid_structure_witness :
    (calendarGrid ⟨2024, 3, 15⟩).length = 5 + 31 ∧
    (calendarGrid ⟨2024, 3, 15⟩)[2]? = some none ∧
    (calendarGrid ⟨2024, 3, 15⟩)[5]? = some (some ⟨2024, 3, 1⟩) := by
  refine ⟨?_, ?_, ?_⟩
  · have h := (calendarGrid_structure ⟨2024, 3, 15⟩).1
    simpa using h
  · exact (calendarGrid_structure ⟨2024, 3, 15⟩).2.1 2 (by decide)
  · have h := (calendarGrid_structure ⟨2024, 3, 15⟩).2.2 0 (by decide)
    simpa using h

/-- The advanced-filter state of `CalendarView`: four independent field
filters, each either `"all"` or a required value. -/
structure AdvancedFilters where
  authStatus : String
  surgeryStatus : String
  hospitalId : String
  insuranceId : String
deriving DecidableEq, Repr

/-- The per-surgery predicate of `CalendarView.filteredSurgeries`: each
early `return false` clause of the source becomes a negated conjunct. -/
def calendarSurgeryPred (doctorFilter : String) (af : AdvancedFilters)
    (s : Surgery) : Bool :=
  !(doctorFilter != "all" && s.mainSurgeonId != doctorFilter &&
      !(s.participatingIds.contains doctorFilter)) &&
  !(af.authStatus != "all" && s.authStatus != af.authStatus) &&
  !(af.surgeryStatus != "all" && s.surgeryStatus != af.surgeryStatus) &&
  !(af.hospitalId != "all" && s.hospitalId != af.hospitalId) &&
  !(af.insuranceId != "all" && s.insuranceId != af.insuranceId)

/-- `CalendarView.filteredSurgeries`. -/
def filteredSurgeries (surgeries : List Surgery) (doctorFilter : String)
    (af : AdvancedFilters) : List Surgery :=
  surgeries.filter (calendarSurgeryPred doctorFilter af)

/-- **C4.** The filter pipeline keeps a surgery iff: when the doctor filter
is not `"all"` it equals the main surgeon or is among the participating
doctors, and each advanced filter that is not `"all"` equals the
corresponding surgery field. -/
theorem filteredSurgeries_mem_iff (surgeries : List Surgery) (df : String)
    (af : AdvancedFilters) (s : Surgery) :
    s ∈ filteredSurgeries surgeries df af ↔
      s ∈ surgeries ∧
      (df ≠ "all" → s.mainSurgeonId = df ∨ df ∈ s.participatingIds) ∧
      (af.authStatus ≠ "all" → s.authStatus = af.authStatus) ∧
      (af.surgeryStatus ≠ "all" → s.surgeryStatus = af.surgeryStatus) ∧
      (af.hospitalId ≠ "all" → s.hospitalId = af.hospitalId) ∧
      (af.insuranceId ≠ "all" → s.insuranceId = af.insuranceId) := by
  simp only [filteredSurgeries, List.mem_filter, calendarSurgeryPred,
    Bool.and_eq_true, Bool.not_eq_true', Bool.and_eq_false_iff,
    bne_eq_false_iff_eq, Bool.not_eq_false', List.contains, List.elem_iff]
  tauto

/-- **C7.** With the doctor filter and all four advanced filters set to
`"all"`, the filter pipeline is the identity: it returns the original
collection with its order preserved. -/
theorem filteredSurgeries_all_is_identity (surgeries : List Surgery) :
    filteredSurgeries surgeries "all" ⟨"all", "all", "all", "all"⟩ = surgeries := by
  apply List.filter_eq_self.mpr
  intro s _
  simp [calendarSurgeryPred]

/-- `String.prototype.includes` on char lists: at each position, test whether
the needle is a prefix of the remaining suffix. -/
def includesAux (q : List Char) : List Char → Bool
  | [] => q.isEmpty
  | c :: cs => q.isPrefixOf (c :: cs) || includesAux q cs

/-- `includesAux` decides substring (infix) containment. -/
theorem includesAux_iff (q : List Char) (l : List Char) :
    includesAux q l = true ↔ q <:+: l := by
  induction l with
  | nil => simp [includesAux, List.isEmpty_iff]
  | cons c cs ih => simp [includesAux, ih, List.infix_cons_iff]

/-- The characters of a string after `toLowerCase`. -/
def lowerChars (s : String) : List Char := s.toList.map Char.toLower

/-- `hay.toLowerCase().includes(q.toLowerCase())` from `App.searchedSurgeries`. -/
def stringIncludes (hay q : String) : Bool :=
  includesAux (lowerChars q) (lowerChars hay)

/-- `!searchQuery.trim()`: the query is empty or whitespace-only. -/
def isBlank (q : String) : Bool := q.toList.all Char.isWhitespace

/-- `App.searchedSurgeries`: empty result for a blank query, otherwise a
case-insensitive substring match of the query against the patient name. -/
def searchedSurgeries (surgeries : List Surgery) (searchQuery : String) :
    List Surgery :=
  if isBlank searchQuery then []
  else surgeries.filter fun s => stringIncludes s.patientName searchQuery

/-- **C8.** A blank (empty or whitespace-only) query yields the empty result
set, not the full collection; a non-blank query yields exactly the surgeries
whose patient name contains the query as a case-insensitive substring. -/
theorem searchedSurgeries_spec (surgeries : List Surgery) (q : String) :
    (isBlank q = true → searchedSurgeries surgeries q = []) ∧
    (isBlank q = false → ∀ s, s ∈ searchedSurgeries surgeries q ↔
        s ∈ surgeries ∧ lowerChars q <:+: lowerChars s.patientName) := by
  constructor
  · intro h
    simp [searchedSurgeries, h]
  · intro h s
    simp [searchedSurgeries, h, stringIncludes, includesAux_iff]

/-- Witness for C8: a whitespace-only query returns nothing, and the query
"ANA" finds the patient "Mariana Silva" case-insensitively. -/
theorem searchedSurgeries_spec_witness :
    searchedSurgeries
      [{ id := "s1", patientName := "Mariana Silva", mainSurgeonId := "d1",
         participatingIds := [], dateTime := ⟨2024, 1, 5, 9, 0, 0, 0⟩,
         hospitalId := "h1", insuranceId := "i1", authStatus := "Pendente",
         surgeryStatus := "Agendada", totalValue := 0, materials := [],
         notes := "" }] "  " = [] ∧
    ({ id := "s1", patientName := "Mariana Silva", mainSurgeonId := "d1",
       participatingIds := [], dateTime := ⟨2024, 1, 5, 9, 0, 0, 0⟩,
       hospitalId := "h1", insuranceId := "i1", authStatus := "Pendente",
       surgeryStatus := "Agendada", totalValue := 0, materials := [],
       notes := "" } : Surgery) ∈
      searchedSurgeries
        [{ id := "s1", patientName := "Mariana Silva", mainSurgeonId := "d1",
           participatingIds := [], dateTime := ⟨2024, 1, 5, 9, 0, 0, 0⟩,
           hospitalId := "h1", insuranceId := "i1", authStatus := "Pendente",
           surgeryStatus := "Agendada", totalValue := 0, materials := [],
           notes := "" }] "ANA" := by
  constructor
  · exact (searchedSurgeries_spec _ "  ").1 (by decide)
  · refine ((searchedSurgeries_spec _ "ANA").2 (by decide) _).mpr
      ⟨List.mem_singleton.mpr rfl, (includesAux_iff _ _).mp (by decide)⟩

/-- The `monthRevenue` aggregate of `DashboardView`: filter to status
`Realizada` in the current month and year of "now", then sum `totalValue`. -/
def monthRevenue (surgeries : List Surgery) (currentYear : Int)
    (currentMonth : Nat) : Int :=
  ((surgeries.filter fun s =>
      s.surgeryStatus == "Realizada" && s.dateTime.month == currentMonth &&
        s.dateTime.year == currentYear).map Surgery.totalValue).sum

/-- **C6.** `monthRevenue` is the sum of `totalValue` over exactly the
surgeries whose status is `Realizada` and whose date lies in the current
month and year; any other status contributes nothing, so three `Realizada`
surgeries valued 100, 200 and 50 this month plus a `Cancelada` one valued
1000 yield 350. -/
theorem monthRevenue_spec :
    (∀ (surgeries : List Surgery) (y : Int) (m : Nat),
      monthRevenue surgeries y m =
        ((surgeries.filter fun s =>
            decide (s.surgeryStatus = "Realizada" ∧ s.dateTime.month = m ∧
              s.dateTime.year = y)).map Surgery.totalValue).sum) ∧
    monthRevenue
      [{ id := "s1", patientName := "A", mainSurgeonId := "d1",
         participatingIds := [], dateTime := ⟨2024, 6, 3, 8, 0, 0, 0⟩,
         hospitalId := "h1", insuranceId := "i1", authStatus := "Liberado",
         surgeryStatus := "Realizada", totalValue := 100, materials := [],
         notes := "" },
       { id := "s2", patientName := "B", mainSurgeonId := "d1",
         participatingIds := [], dateTime := ⟨2024, 6, 10, 9, 0, 0, 0⟩,
         hospitalId := "h1", insuranceId := "i1", authStatus := "Liberado",
         surgeryStatus := "Realizada", totalValue := 200, materials := [],
         notes := "" },
       { id := "s3", patientName := "C", mainSurgeonId := "d1",
         participatingIds := [], dateTime := ⟨2024, 6, 20, 10, 0, 0, 0⟩,
         hospitalId := "h1", insuranceId := "i1", authStatus := "Liberado",
         surgeryStatus := "Realizada", totalValue := 50, materials := [],
         notes := "" },
       { id := "s4", patientName := "D", mainSurgeonId := "d1",
         participatingIds := [], dateTime := ⟨2024, 6, 25, 11, 0, 0, 0⟩,
         hospitalId := "h1", insuranceId := "i1", authStatus := "Liberado",
         surgeryStatus := "Cancelada", totalValue := 1000, materials := [],
         notes := "" }] 2024 6 = 350 := by
  constructor
  · intro surgeries y m
    unfold monthRevenue
    congr 1
    apply congrArg
    apply List.filter_congr
    intro s _
    rw [Bool.eq_iff_iff]
    simp [Bool.and_eq_true, and_assoc]
  · decide

/-- Toast kind, `type ToastType = 'success' | 'error'`. -/
inductive ToastType where
  | success
  | error
deriving DecidableEq, Repr

/-- A notification, `interface ToastMessage` (the auto-generated id and the
display timer are rendering concerns and are omitted). -/
structure ToastMsg where
  message : String
  type : ToastType
deriving DecidableEq, Repr

/-- The React state of `App` that the Sync Controller mutates: the session
flag, the logged-in profile and the five in-memory collections. -/
structure AppState where
  hasSession : Bool
  loggedInProfile : Option UserProfile
  doctors : List Doctor
  userProfiles : List UserProfile
  surgeries : List Surgery
  hospitals : List Hospital
  insurancePlans : List InsurancePlan
deriving DecidableEq, Repr

/-- The six remote reads performed by `fetchData`, each either data or an
error message. -/
structure FetchResults where
  profileRes : Except String UserProfile
  doctorsRes : Except String (List Doctor)
  surgeriesRes : Except String (List Surgery)
  hospitalsRes : Except String (List Hospital)
  plansRes : Except String (List InsurancePlan)
  profilesRes : Except String (List UserProfile)
deriving Repr

/-- The error toast of `fetchData`'s catch block. -/
def loadErrorToast (e : String) : ToastMsg :=
  ⟨"Erro ao carregar dados: " ++ e, ToastType.error⟩

/-- The state reached by `fetchData`'s catch block from an intermediate
state: `setLoggedInProfile(null); setSession(null)` (the collection `set`
calls already executed are kept). -/
def fetchFail (st : AppState) : AppState :=
  { st with loggedInProfile := none, hasSession := false }

/-- `App.fetchData`: read the profile, then the five collections, replacing
each piece of state in source order; the first error jumps to the catch
block, which emits one error toast and clears the profile and session. Each
`setX` already executed before the failing check remains in effect. -/
def fetchData (st : AppState) (r : FetchResults) : AppState × List ToastMsg :=
  match r.profileRes with
  | Except.error _ =>
      (fetchFail st,
        [loadErrorToast "Perfil do usuário não encontrado. Realizando logout."])
  | Except.ok profile =>
    let st := { st with loggedInProfile := some profile }
    match r.doctorsRes with
    | Except.error e => (fetchFail st, [loadErrorToast e])
    | Except.ok ds =>
      let st := { st with doctors := ds }
      match r.surgeriesRes with
      | Except.error e => (fetchFail st, [loadErrorToast e])
      | Except.ok ss =>
        let st := { st with surgeries := ss }
        match r.hospitalsRes with
        | Except.error e => (fetchFail st, [loadErrorToast e])
        | Except.ok hs =>
          let st := { st with hospitals := hs }
          match r.plansRes with
          | Except.error e => (fetchFail st, [loadErrorToast e])
          | Except.ok ps =>
            let st := { st with insurancePlans := ps }
            match r.profilesRes with
            | Except.error e => (fetchFail st, [loadErrorToast e])
            | Except.ok us => ({ st with userProfiles := us }, [])

/-- `App.handleSaveSurgery`: upsert, then on success a success toast and a
full reload; on failure only an error toast carrying the message. -/
def handleSaveSurgery (st : AppState) (editedId : Option String)
    (upsertRes : Except String Unit) (reload : FetchResults) :
    AppState × List ToastMsg :=
  match upsertRes with
  | Except.error e => (st, [⟨"Erro: " ++ e, ToastType.error⟩])
  | Except.ok _ =>
    let msg := match editedId with
      | some _ => "Cirurgia atualizada!"
      | none => "Cirurgia salva!"
    let res := fetchData st reload
    (res.1, ⟨msg, ToastType.success⟩ :: res.2)

/-- `App.handleSurgeryDrop`: look up the dragged surgery; if absent, return
immediately (no write, no toast, no state change). Otherwise compute the new
timestamp, issue the update (the third component is the issued write's
payload), and on success toast and reload; on failure only an error toast. -/
def handleSurgeryDrop (st : AppState) (surgeryId : String) (newDate : CalDate)
    (updateRes : Except String Unit) (reload : FetchResults) :
    AppState × List ToastMsg × Option (String × DateTime) :=
  match st.surgeries.find? (fun s => s.id == surgeryId) with
  | none => (st, [], none)
  | some surgery =>
    let newDateTime := rescheduleTimestamp surgery newDate
    match updateRes with
    | Except.error e =>
        (st, [⟨"Erro ao mover cirurgia: " ++ e, ToastType.error⟩],
          some (surgeryId, newDateTime))
    | Except.ok _ =>
      let res := fetchData st reload
      (res.1, ⟨"Cirurgia movida com sucesso!", ToastType.success⟩ :: res.2,
        some (surgeryId, newDateTime))

/-- `App.handleAddDoctor`. -/
def handleAddDoctor (st : AppState) (insertRes : Except String Unit)
    (reload : FetchResults) : AppState × List ToastMsg :=
  match insertRes with
  | Except.error e => (st, [⟨"Erro ao adicionar médico: " ++ e, ToastType.error⟩])
  | Except.ok _ =>
    let res := fetchData st reload
    (res.1, ⟨"Médico adicionado!", ToastType.success⟩ :: res.2)

/-- `App.handleDeleteDoctor`. -/
def handleDeleteDoctor (st : AppState) (deleteRes : Except String Unit)
    (reload : FetchResults) : AppState × List ToastMsg :=
  match deleteRes with
  | Except.error e => (st, [⟨"Erro ao excluir médico: " ++ e, ToastType.error⟩])
  | Except.ok _ =>
    let res := fetchData st reload
    (res.1, ⟨"Médico excluído!", ToastType.success⟩ :: res.2)

/-- `App.handleAddHospital`. -/
def handleAddHospital (st : AppState) (insertRes : Except String Unit)
    (reload : FetchResults) : AppState × List ToastMsg :=
  match insertRes with
  | Except.error e => (st, [⟨"Erro ao adicionar hospital: " ++ e, ToastType.error⟩])
  | Except.ok _ =>
    let res := fetchData st reload
    (res.1, ⟨"Hospital adicionado!", ToastType.success⟩ :: res.2)

/-- `App.handleDeleteHospital`. -/
def handleDeleteHospital (st : AppState) (deleteRes : Except String Unit)
    (reload : FetchResults) : AppState × List ToastMsg :=
  match deleteRes with
  | Except.error e => (st, [⟨"Erro ao excluir hospital: " ++ e, ToastType.error⟩])
  | Except.ok _ =>
    let res := fetchData st reload
    (res.1, ⟨"Hospital excluído!", ToastType.success⟩ :: res.2)

/-- `App.handleAddPlan`. -/
def handleAddPlan (st : AppState) (insertRes : Except String Unit)
    (reload : FetchResults) : AppState × List ToastMsg :=
  match insertRes with
  | Except.error e => (st, [⟨"Erro ao adicionar convênio: " ++ e, ToastType.error⟩])
  | Except.ok _ =>
    let res := fetchData st reload
    (res.1, ⟨"Convênio adicionado!", ToastType.success⟩ :: res.2)

/-- `App.handleDeletePlan`. -/
def handleDeletePlan (st : AppState) (deleteRes : Except String Unit)
    (reload : FetchResults) : AppState × List ToastMsg :=
  match deleteRes with
  | Except.error e => (st, [⟨"Erro ao excluir convênio: " ++ e, ToastType.error⟩])
  | Except.ok _ =>
    let res := fetchData st reload
    (res.1, ⟨"Convênio excluído!", ToastType.success⟩ :: res.2)

/-- Counterexample to C3: when the reload's doctors fetch succeeds but its
surgeries fetch fails, `fetchData` has already replaced the doctors
collection before the failing check, so the failure notification is emitted
with the in-memory state visibly changed — the operation is not atomic. -/
theorem fetchData_not_atomic_counterexample :
    (fetchData
        { hasSession := true,
          loggedInProfile := some ⟨"u1", "d1", false, some "Dr A"⟩,
          doctors := [⟨"d1", "Dr A", "#fff"⟩], userProfiles := [],
          surgeries := [], hospitals := [], insurancePlans := [] }
        { profileRes := Except.ok ⟨"u1", "d1", false, some "Dr A"⟩,
          doctorsRes := Except.ok [⟨"d1", "Dr A", "#fff"⟩, ⟨"d2", "Dr B", "#000"⟩],
          surgeriesRes := Except.error "boom",
          hospitalsRes := Except.ok [], plansRes := Except.ok [],
          profilesRes := Except.ok [] }).2 =
      [⟨"Erro ao carregar dados: boom", ToastType.error⟩] ∧
    (fetchData
        { hasSession := true,
          loggedInProfile := some ⟨"u1", "d1", false, some "Dr A"⟩,
          doctors := [⟨"d1", "Dr A", "#fff"⟩], userProfiles := [],
          surgeries := [], hospitals := [], insurancePlans := [] }
        { profileRes := Except.ok ⟨"u1", "d1", false, some "Dr A"⟩,
          doctorsRes := Except.ok [⟨"d1", "Dr A", "#fff"⟩, ⟨"d2", "Dr B", "#000"⟩],
          surgeriesRes := Except.error "boom",
          hospitalsRes := Except.ok [], plansRes := Except.ok [],
          profilesRes := Except.ok [] }).1.doctors ≠ [⟨"d1", "Dr A", "#fff"⟩] := by
  exact ⟨rfl, by decide⟩

/-- **C3 (amended).** A failing remote write leaves the in-memory collections
exactly as they were and emits one failure notification carrying the error's
message, for every mutating operation — including the reschedule, whose
failing update emits exactly the "Erro ao mover cirurgia" toast when the
dragged surgery is found. The reload is not atomic: when its surgeries fetch
fails, a failure notification carrying the message is emitted and the
collections checked after the failing one keep their prior values, but the
doctors collection has already been replaced and the logged-in profile and
session are cleared. -/
theorem syncController_failure_behaviour (st : AppState) (e : String)
    (editedId : Option String) (surgeryId : String) (newDate : CalDate)
    (reload : FetchResults) (profile : UserProfile) (ds : List Doctor)
    (r4 : Except String (List Hospital)) (r5 : Except String (List InsurancePlan))
    (r6 : Except String (List UserProfile)) (surgery : Surgery) :
    handleSaveSurgery st editedId (Except.error e) reload =
      (st, [⟨"Erro: " ++ e, ToastType.error⟩]) ∧
    (handleSurgeryDrop st surgeryId newDate (Except.error e) reload).1 = st ∧
    (st.surgeries.find? (fun s => s.id == surgeryId) = some surgery →
      (handleSurgeryDrop st surgeryId newDate (Except.error e) reload).2.1 =
        [⟨"Erro ao mover cirurgia: " ++ e, ToastType.error⟩]) ∧
    handleAddDoctor st (Except.error e) reload =
      (st, [⟨"Erro ao adicionar médico: " ++ e, ToastType.error⟩]) ∧
    handleDeleteDoctor st (Except.error e) reload =
      (st, [⟨"Erro ao excluir médico: " ++ e, ToastType.error⟩]) ∧
    handleAddHospital st (Except.error e) reload =
      (st, [⟨"Erro ao adicionar hospital: " ++ e, ToastType.error⟩]) ∧
    handleDeleteHospital st (Except.error e) reload =
      (st, [⟨"Erro ao excluir hospital: " ++ e, ToastType.error⟩]) ∧
    handleAddPlan st (Except.error e) reload =
      (st, [⟨"Erro ao adicionar convênio: " ++ e, ToastType.error⟩]) ∧
    handleDeletePlan st (Except.error e) reload =
      (st, [⟨"Erro ao excluir convênio: " ++ e, ToastType.error⟩]) ∧
    (fetchData st ⟨Except.ok profile, Except.ok ds, Except.error e, r4, r5, r6⟩).1.surgeries =
      st.surgeries ∧
    (fetchData st ⟨Except.ok profile, Except.ok ds, Except.error e, r4, r5, r6⟩).1.hospitals =
      st.hospitals ∧
    (fetchData st ⟨Except.ok profile, Except.ok ds, Except.error e, r4, r5, r6⟩).1.insurancePlans =
      st.insurancePlans ∧
    (fetchData st ⟨Except.ok profile, Except.ok ds, Except.error e, r4, r5, r6⟩).1.userProfiles =
      st.userProfiles ∧
    (fetchData st ⟨Except.ok profile, Except.ok ds, Except.error e, r4, r5, r6⟩).1.doctors = ds ∧
    (fetchData st ⟨Except.ok profile, Except.ok ds, Except.error e, r4, r5, r6⟩).2 =
      [loadErrorToast e] ∧
    (fetchData st ⟨Except.ok profile, Except.ok ds, Except.error e, r4, r5, r6⟩).1.loggedInProfile =
      none ∧
    (fetchData st ⟨Except.ok profile, Except.ok ds, Except.error e, r4, r5, r6⟩).1.hasSession =
      false := by
  refine ⟨rfl, ?_, ?_, rfl, rfl, rfl, rfl, rfl, rfl, rfl, rfl, rfl, rfl, rfl, rfl, rfl, rfl⟩
  · unfold handleSurgeryDrop
    cases st.surgeries.find? (fun s => s.id == surgeryId) <;> rfl
  · intro h
    unfold handleSurgeryDrop
    rw [h]

/-- Witness for C3 (amended): a reschedule whose remote update fails on a
concrete one-surgery state emits exactly the error toast carrying the
message. -/
theorem syncController_failure_behaviour_witness :
    (handleSurgeryDrop
        ⟨true, none, [], [],
          [⟨"s1", "Ana", "d1", [], ⟨2024, 3, 15, 10, 0, 0, 0⟩, "h1", "i1",
            "Pendente", "Agendada", 0, [], ""⟩],
          [], []⟩
        "s1" ⟨2024, 3, 20⟩ (Except.error "falha de rede")
        ⟨Except.ok ⟨"u1", "d1", false, some "Dr A"⟩, Except.ok [], Except.ok [],
          Except.ok [], Except.ok [], Except.ok []⟩).2.1 =
      [⟨"Erro ao mover cirurgia: falha de rede", ToastType.error⟩] :=
  (syncController_failure_behaviour
      ⟨true, none, [], [],
        [⟨"s1", "Ana", "d1", [], ⟨2024, 3, 15, 10, 0, 0, 0⟩, "h1", "i1",
          "Pendente", "Agendada", 0, [], ""⟩],
        [], []⟩
      "falha de rede" none "s1" ⟨2024, 3, 20⟩
      ⟨Except.ok ⟨"u1", "d1", false, some "Dr A"⟩, Except.ok [], Except.ok [],
        Except.ok [], Except.ok [], Except.ok []⟩
      ⟨"u1", "d1", false, some "Dr A"⟩ [] (Except.ok []) (Except.ok [])
      (Except.ok [])
      ⟨"s1", "Ana", "d1", [], ⟨2024, 3, 15, 10, 0, 0, 0⟩, "h1", "i1",
        "Pendente", "Agendada", 0, [], ""⟩).2.2.1 (by decide)

/-- **C10.** A drop event whose surgery id is not in the in-memory collection
is a complete no-op: no remote write is issued, the state is unchanged and
no notification of any kind is emitted. -/
theorem surgeryDrop_unknown_id_noop (st : AppState) (surgeryId : String)
    (newDate : CalDate) (updateRes : Except String Unit)
    (reload : FetchResults)
    (h : st.surgeries.find? (fun s => s.id == surgeryId) = none) :
    handleSurgeryDrop st surgeryId newDate updateRes reload = (st, [], none) := by
  unfold handleSurgeryDrop
  rw [h]

/-- Witness for C10: dropping an unknown id onto a concrete one-surgery
state does nothing. -/
theorem surgeryDrop_unknown_id_noop_witness :
    handleSurgeryDrop
      ⟨true, none, [], [],
        [⟨"s1", "Ana", "d1", [], ⟨2024, 3, 15, 10, 0, 0, 0⟩, "h1", "i1",
          "Pendente", "Agendada", 0, [], ""⟩],
        [], []⟩
      "zzz" ⟨2024, 3, 20⟩ (Except.ok ())
      ⟨Except.error "x", Except.ok [], Except.ok [], Except.ok [],
        Except.ok [], Except.ok []⟩ =
    (⟨true, none, [], [],
        [⟨"s1", "Ana", "d1", [], ⟨2024, 3, 15, 10, 0, 0, 0⟩, "h1", "i1",
          "Pendente", "Agendada", 0, [], ""⟩],
        [], []⟩, [], none) :=
  surgeryDrop_unknown_id_noop _ "zzz" ⟨2024, 3, 20⟩ (Except.ok ()) _ (by decide)
